import Mathlib

/-!
Verification development for the `rust-jni` binding (src/lib/jni.rs).

The Rust library wraps the JNI C call table in a capability/exception
type-state protocol.  The shallow embedding below models:

  * the zero-size `Capability` and `Exception` tokens,
  * the `RefType` enumeration and the handle family
    (`JavaObject`, `JavaClass`, `JavaThrowable`, `JavaString`, `JavaArray`),
  * the fallible environment operations, each taking the result of the
    underlying native call as an explicit oracle argument, since the
    native JVM is an external collaborator,
  * the drop implementations of `JavaEnv`, `JavaVM` and the handle family,
  * a signature table (`ApiSig`) transcribing, for each public function,
    which token parameters it takes, which tokens appear in its success
    and failure results, and which native call-table functions it invokes.

Native calls are recorded in `NativeCall` traces; a Rust `panic!` or a
failing `assert!` is modelled by the `Outcome.fatal` constructor.
-/

/-- Reference kinds of the JNI binding (source: `enum RefType`). -/
inductive RefType where
  | Local
  | Global
  | Weak
deriving DecidableEq

/-- Zero-size token proving that no exception is pending
(source: `struct Capability { _cap: () }`). -/
structure Capability where
  _cap : Unit
deriving DecidableEq

/-- Public constructor of `Capability` (source: `impl Capability`, `pub fn new`). -/
def Capability.new : Capability := ⟨()⟩

/-- Zero-size token proving that an exception is pending
(source: `struct Exception { _cap: () }`). -/
structure Exception where
  _cap : Unit
deriving DecidableEq

/-- Public constructor of `Exception` (source: `impl Exception`, `pub fn new`). -/
def Exception.new : Exception := ⟨()⟩

/-- Result type of fallible JNI operations
(source: `pub type JniResult<T> = Result<(T, Capability), Exception>`). -/
abbrev JniResult (α : Type) : Type := Except Exception (α × Capability)

/-- JNI status codes.  The enum itself lives in the `native` module, which is
not part of the packaged source; the variants are the standard JNI codes used
by src/lib/jni.rs (`JNI_OK`, `JNI_EDETACHED`, dispatch on inequality). -/
inductive JniError where
  | JNI_OK
  | JNI_ERR
  | JNI_EDETACHED
  | JNI_EVERSION
  | JNI_ENOMEM
  | JNI_EEXIST
  | JNI_EINVAL
deriving DecidableEq

/-- Modelled from the spec: the `JniVersion` enum is declared in the `native`
module, which is not under src/.  Per the spec, the requested version is a
small closed set of released version identifiers; `JavaEnv::version` accepts
exactly the raw range `0x00010001 ... 0x00010008` and transmutes it, so the
enum carries those eight values. -/
inductive JniVersion where
  | JNI_VERSION_1_1
  | JNI_VERSION_1_2
  | JNI_VERSION_1_3
  | JNI_VERSION_1_4
  | JNI_VERSION_1_5
  | JNI_VERSION_1_6
  | JNI_VERSION_1_7
  | JNI_VERSION_1_8
deriving DecidableEq

/-- Raw `u32` value of a version identifier (the `repr` value transmuted by
`JavaEnv::version`). -/
def JniVersion.raw : JniVersion → Nat
  | JniVersion.JNI_VERSION_1_1 => 0x00010001
  | JniVersion.JNI_VERSION_1_2 => 0x00010002
  | JniVersion.JNI_VERSION_1_3 => 0x00010003
  | JniVersion.JNI_VERSION_1_4 => 0x00010004
  | JniVersion.JNI_VERSION_1_5 => 0x00010005
  | JniVersion.JNI_VERSION_1_6 => 0x00010006
  | JniVersion.JNI_VERSION_1_7 => 0x00010007
  | JniVersion.JNI_VERSION_1_8 => 0x00010008

/-- Inverse of `JniVersion.raw`: the `0x00010001 ... 0x00010008` range match
performed by `JavaEnv::version` before its `transmute`. -/
def JniVersion.fromRaw (r : Nat) : Option JniVersion :=
  if r = 0x00010001 then some JniVersion.JNI_VERSION_1_1
  else if r = 0x00010002 then some JniVersion.JNI_VERSION_1_2
  else if r = 0x00010003 then some JniVersion.JNI_VERSION_1_3
  else if r = 0x00010004 then some JniVersion.JNI_VERSION_1_4
  else if r = 0x00010005 then some JniVersion.JNI_VERSION_1_5
  else if r = 0x00010006 then some JniVersion.JNI_VERSION_1_6
  else if r = 0x00010007 then some JniVersion.JNI_VERSION_1_7
  else if r = 0x00010008 then some JniVersion.JNI_VERSION_1_8
  else none

/-- Raw native reference value (`jobject`); `0` is the null sentinel. -/
abbrev Ref : Type := Nat

/-- Calls into the native JNI function table, recorded as a trace. -/
inductive NativeCall where
  | DeleteLocalRef (r : Ref)
  | DeleteGlobalRef (r : Ref)
  | DeleteWeakGlobalRef (r : Ref)
  | ExceptionCheck
  | ExceptionDescribe
  | ExceptionClear
  | GetJavaVM
  | DetachCurrentThread
  | DestroyJavaVM (r : Ref)
deriving DecidableEq

/-- Result of a Rust computation that may abort the process: `fatal` models a
`panic!` or a failing `assert!`. -/
inductive Outcome (α : Type) where
  | ok (a : α)
  | fatal
deriving DecidableEq

/-- State of the native runtime visible to this binding: the pending-exception
flag and the table mapping live reference values to the identity of the object
they refer to (`0` meaning the reference is null or unallocated).  The JNI
contract modelled here: `ExceptionClear` resets the flag, `ExceptionCheck`
reads it, and `NewLocalRef` / `NewGlobalRef` / `NewWeakGlobalRef` return a
fresh reference to the same underlying object. -/
structure JvmState where
  pending : Bool
  refObj : Ref → Nat

/-- Native `ExceptionClear`: resets the pending-exception flag. -/
def nativeExceptionClear (s : JvmState) : JvmState :=
  { s with pending := false }

/-- Native `ExceptionCheck`: reads the pending-exception flag. -/
def nativeExceptionCheck (s : JvmState) : Bool :=
  s.pending

/-- Handle for a generic object (source: `struct JavaObject`); the owning
environment reference is implicit in this model. -/
structure JavaObject where
  ptr : Ref
  rtype : RefType
deriving DecidableEq

/-- Handle for a class (source: `struct JavaClass`). -/
structure JavaClass where
  ptr : Ref
  rtype : RefType
deriving DecidableEq

/-- Handle for a throwable (source: `struct JavaThrowable`). -/
structure JavaThrowable where
  ptr : Ref
  rtype : RefType
deriving DecidableEq

/-- Handle for a string (source: `struct JavaString`). -/
structure JavaString where
  ptr : Ref
  rtype : RefType
deriving DecidableEq

/-- Handle for a typed array (source: `struct JavaArray<T>`); the phantom
element type plays no role in the drop dispatch modelled here. -/
structure JavaArray where
  ptr : Ref
  rtype : RefType
deriving DecidableEq

/-- Version query (source: `JavaEnv::version`): takes a `Capability` by
reference, reads the raw value the native `GetVersion` reports (the oracle
argument `reported`), and transmutes any value in the recognized range;
any other value panics. -/
def JavaEnv.version (reported : Nat) (_cap : Capability) : Outcome JniVersion :=
  match JniVersion.fromRaw reported with
  | some v => Outcome.ok v
  | none => Outcome.fatal

/-- Class definition (source: `JavaEnv::define_class`): consumes the
capability; the oracle `obj` is the reference the native `DefineClass`
returned, `0` meaning null. -/
def JavaEnv.define_class (_name : String) (_loader : JavaObject) (_buf : List Nat)
    (obj : Ref) (_cap : Capability) : JniResult JavaClass :=
  if obj = 0 then Except.error Exception.new
  else Except.ok (⟨obj, RefType.Local⟩, Capability.new)

/-- Class lookup (source: `JavaEnv::find_class`): consumes the capability; the
oracle `obj` is the reference the native `FindClass` returned. -/
def JavaEnv.find_class (_name : String) (obj : Ref) (_cap : Capability) :
    JniResult JavaClass :=
  if obj = 0 then Except.error Exception.new
  else Except.ok (⟨obj, RefType.Local⟩, Capability.new)

/-- Exception throwing (source: `JavaEnv::throw`): consumes the capability;
the oracle `err` is the status the native `Throw` returned.  On `JNI_OK` the
result is a fresh `Exception` token; otherwise the bare status code. -/
def JavaEnv.throw (_obj : JavaThrowable) (err : JniError) (_cap : Capability) :
    Except JniError Exception :=
  if err = JniError.JNI_OK then Except.ok Exception.new
  else Except.error err

/-- Exception check (source: `JavaEnv::exception_check`): requires no token;
reads the pending-exception flag through the native `ExceptionCheck`. -/
def JavaEnv.exception_check (s : JvmState) : Except Exception Capability :=
  if nativeExceptionCheck s then Except.error Exception.new
  else Except.ok Capability.new

/-- Exception clearing (source: `JavaEnv::exception_clear`): consumes the
`Exception` token, invokes the native `ExceptionClear`, and unconditionally
issues a fresh `Capability`. -/
def JavaEnv.exception_clear (s : JvmState) (_exn : Exception) :
    JvmState × Capability :=
  (nativeExceptionClear s, Capability.new)

/-- Local-frame push (source: `JavaEnv::push_local_frame`): consumes the
capability; the oracle `err` is the status of the native `PushLocalFrame`. -/
def JavaEnv.push_local_frame (_capacity : Int) (err : JniError) (_cap : Capability) :
    Except (JniError × Exception) Capability :=
  if err = JniError.JNI_OK then Except.ok Capability.new
  else Except.error (err, Exception.new)

/-- Local-frame pop (source: `JavaEnv::pop_local_frame`): carries exactly one
handle through the frame boundary; the oracle `r` is the reference the native
`PopLocalFrame` returned.  A null result fails the `assert!` (fatal); a
non-null result becomes a fresh Local-kind handle. -/
def JavaEnv.pop_local_frame (_result : JavaObject) (r : Ref) (_cap : Capability) :
    Outcome JavaObject :=
  if r = 0 then Outcome.fatal
  else Outcome.ok ⟨r, RefType.Local⟩

/-- Local-reference release (source: `JavaEnv::delete_local_ref`): asserts the
handle is Local-kind, then invokes the native `DeleteLocalRef` once. -/
def JavaEnv.delete_local_ref (rtype : RefType) (r : Ref) : Outcome (List NativeCall) :=
  if rtype = RefType.Local then Outcome.ok [NativeCall.DeleteLocalRef r]
  else Outcome.fatal

/-- Global-reference release (source: `JavaEnv::delete_global_ref`). -/
def JavaEnv.delete_global_ref (rtype : RefType) (r : Ref) : Outcome (List NativeCall) :=
  if rtype = RefType.Global then Outcome.ok [NativeCall.DeleteGlobalRef r]
  else Outcome.fatal

/-- Weak-reference release (source: `JavaEnv::delete_weak_ref`). -/
def JavaEnv.delete_weak_ref (rtype : RefType) (r : Ref) : Outcome (List NativeCall) :=
  if rtype = RefType.Weak then Outcome.ok [NativeCall.DeleteWeakGlobalRef r]
  else Outcome.fatal

/-- Object allocation (source: `JavaEnv::alloc_object`): consumes the
capability; the oracle `obj` is the reference the native `AllocObject`
returned. -/
def JavaEnv.alloc_object (_clazz : JavaClass) (obj : Ref) (_cap : Capability) :
    JniResult JavaObject :=
  if obj = 0 then Except.error Exception.new
  else Except.ok (⟨obj, RefType.Local⟩, Capability.new)

/-- Monitor exit (source: `JavaEnv::monitor_exit`): consumes the capability;
the oracle `err` is the status of the native `MonitorExit`. -/
def JavaEnv.monitor_exit (_obj : JavaObject) (err : JniError) (_cap : Capability) :
    Except (JniError × Exception) Capability :=
  if err = JniError.JNI_OK then Except.ok Capability.new
  else Except.error (err, Exception.new)

/-- String construction (source: `JavaString::new`): consumes the capability;
the oracle `r` is the reference the native `NewStringUTF` returned. -/
def JavaString.new (_val : String) (r : Ref) (_cap : Capability) :
    JniResult JavaString :=
  if r = 0 then Except.error Exception.new
  else Except.ok (⟨r, RefType.Local⟩, Capability.new)

/-- Local-reference creation (source: trait method `JObject::local`): consumes
the capability, invokes the native `NewLocalRef` on the source handle (the
oracle `r` is the fresh reference it returned, `0` on failure), and on success
wraps `r` as a Local-kind handle; the source handle is not consumed.  The
returned state records the JNI contract that the fresh reference denotes the
same underlying object as the source reference. -/
def JObject.local (s : JvmState) (h : JavaObject) (r : Ref) (_cap : Capability) :
    JvmState × JniResult JavaObject :=
  if r = 0 then (s, Except.error Exception.new)
  else ({ s with refObj := fun x => if x = r then s.refObj h.ptr else s.refObj x },
        Except.ok (⟨r, RefType.Local⟩, Capability.new))

/-- Global-reference creation (source: trait method `JObject::global`), with
the native `NewGlobalRef` as the oracle. -/
def JObject.global (s : JvmState) (h : JavaObject) (r : Ref) (_cap : Capability) :
    JvmState × JniResult JavaObject :=
  if r = 0 then (s, Except.error Exception.new)
  else ({ s with refObj := fun x => if x = r then s.refObj h.ptr else s.refObj x },
        Except.ok (⟨r, RefType.Global⟩, Capability.new))

/-- Weak-reference creation (source: trait method `JObject::weak`), with the
native `NewWeakGlobalRef` as the oracle. -/
def JObject.weak (s : JvmState) (h : JavaObject) (r : Ref) (_cap : Capability) :
    JvmState × JniResult JavaObject :=
  if r = 0 then (s, Except.error Exception.new)
  else ({ s with refObj := fun x => if x = r then s.refObj h.ptr else s.refObj x },
        Except.ok (⟨r, RefType.Weak⟩, Capability.new))

/-- Drop of `JavaObject` (source: `impl_jobject!` expansion of `Drop`):
dispatches on the reference kind to the matching release operation. -/
def JavaObject.drop (h : JavaObject) : Outcome (List NativeCall) :=
  match h.rtype with
  | RefType.Local => JavaEnv.delete_local_ref h.rtype h.ptr
  | RefType.Global => JavaEnv.delete_global_ref h.rtype h.ptr
  | RefType.Weak => JavaEnv.delete_weak_ref h.rtype h.ptr

/-- Drop of `JavaClass` (source: `impl_jobject!` expansion of `Drop`). -/
def JavaClass.drop (h : JavaClass) : Outcome (List NativeCall) :=
  match h.rtype with
  | RefType.Local => JavaEnv.delete_local_ref h.rtype h.ptr
  | RefType.Global => JavaEnv.delete_global_ref h.rtype h.ptr
  | RefType.Weak => JavaEnv.delete_weak_ref h.rtype h.ptr

/-- Drop of `JavaThrowable` (source: `impl_jobject!` expansion of `Drop`). -/
def JavaThrowable.drop (h : JavaThrowable) : Outcome (List NativeCall) :=
  match h.rtype with
  | RefType.Local => JavaEnv.delete_local_ref h.rtype h.ptr
  | RefType.Global => JavaEnv.delete_global_ref h.rtype h.ptr
  | RefType.Weak => JavaEnv.delete_weak_ref h.rtype h.ptr

/-- Drop of `JavaString` (source: `impl_jobject!` expansion of `Drop`). -/
def JavaString.drop (h : JavaString) : Outcome (List NativeCall) :=
  match h.rtype with
  | RefType.Local => JavaEnv.delete_local_ref h.rtype h.ptr
  | RefType.Global => JavaEnv.delete_global_ref h.rtype h.ptr
  | RefType.Weak => JavaEnv.delete_weak_ref h.rtype h.ptr

/-- Drop of `JavaArray` (source: the hand-written `impl Drop for JavaArray`,
textually identical to the macro expansion). -/
def JavaArray.drop (h : JavaArray) : Outcome (List NativeCall) :=
  match h.rtype with
  | RefType.Local => JavaEnv.delete_local_ref h.rtype h.ptr
  | RefType.Global => JavaEnv.delete_global_ref h.rtype h.ptr
  | RefType.Weak => JavaEnv.delete_weak_ref h.rtype h.ptr

/-- The release operation matched to each reference kind (the three native
deletion entry points used by `delete_local_ref` / `delete_global_ref` /
`delete_weak_ref`). -/
def releaseFor : RefType → Ref → NativeCall
  | RefType.Local, r => NativeCall.DeleteLocalRef r
  | RefType.Global, r => NativeCall.DeleteGlobalRef r
  | RefType.Weak, r => NativeCall.DeleteWeakGlobalRef r

/-- Classifies a native call as the release operation of a reference kind. -/
def releaseKindOf : NativeCall → Option RefType
  | NativeCall.DeleteLocalRef _ => some RefType.Local
  | NativeCall.DeleteGlobalRef _ => some RefType.Global
  | NativeCall.DeleteWeakGlobalRef _ => some RefType.Weak
  | _ => none

/-- Possible results of `Drop for JavaEnv` (source: `impl Drop for JavaEnv`):
`assertPending` is the failing `assert!(false)` on a pending exception,
the two error constructors are the two `panic!` calls of the detach path. -/
inductive DropOutcome where
  | ok
  | assertPending
  | getJavaVMError (e : JniError)
  | detachError (e : JniError)
deriving DecidableEq

/-- Drop of `JavaEnv` (source: `impl Drop for JavaEnv`): first re-checks the
exception state; if an exception is pending it describes it, clears it, and
fails the `assert!`; otherwise, when the `detach` flag is set, it looks up the
owning VM (`GetJavaVM`, oracle status `getVmErr`) and detaches the thread
(`DetachCurrentThread`, oracle status `detachErr`), panicking on any non-OK
status. -/
def JavaEnv.drop (s : JvmState) (detach : Bool) (getVmErr detachErr : JniError) :
    DropOutcome × List NativeCall :=
  match JavaEnv.exception_check s with
  | Except.error _ =>
      (DropOutcome.assertPending,
       [NativeCall.ExceptionCheck, NativeCall.ExceptionDescribe, NativeCall.ExceptionClear])
  | Except.ok _ =>
      if detach then
        if getVmErr ≠ JniError.JNI_OK then
          (DropOutcome.getJavaVMError getVmErr,
           [NativeCall.ExceptionCheck, NativeCall.GetJavaVM])
        else if detachErr ≠ JniError.JNI_OK then
          (DropOutcome.detachError detachErr,
           [NativeCall.ExceptionCheck, NativeCall.GetJavaVM, NativeCall.DetachCurrentThread])
        else
          (DropOutcome.ok,
           [NativeCall.ExceptionCheck, NativeCall.GetJavaVM, NativeCall.DetachCurrentThread])
      else (DropOutcome.ok, [NativeCall.ExceptionCheck])

/-- Runtime handle (source: `struct JavaVM`): the raw runtime pointer (null
when already destroyed) and the version the runtime was created with; the
field accessor `JavaVM.version` models `JavaVM::version`, which returns the
stored requested version. -/
structure JavaVM where
  ptr : Ref
  version : JniVersion
deriving DecidableEq

/-- Runtime teardown (source: `JavaVM::destroy_java_vm`): a guarded no-op
returning `JNI_OK` when the pointer is already null; otherwise invokes the
native `DestroyJavaVM` once (oracle status `nativeErr`) and nulls the
pointer. -/
def JavaVM.destroy_java_vm (vm : JavaVM) (nativeErr : JniError) :
    JavaVM × JniError × List NativeCall :=
  if vm.ptr = 0 then (vm, JniError.JNI_OK, [])
  else ({ vm with ptr := 0 }, nativeErr, [NativeCall.DestroyJavaVM vm.ptr])

/-- Drop of `JavaVM` (source: `impl Drop for JavaVM`): runs the teardown and
panics on any non-OK status. -/
def JavaVM.drop (vm : JavaVM) (nativeErr : JniError) :
    Outcome (JavaVM × List NativeCall) :=
  let r := vm.destroy_java_vm nativeErr
  if r.2.1 = JniError.JNI_OK then Outcome.ok (r.1, r.2.2)
  else Outcome.fatal

/-- Token types of the protocol. -/
inductive TokenTy where
  | cap
  | exc
deriving DecidableEq

/-- How a token parameter is passed: consumed by value, or borrowed by
reference. -/
inductive TokenParam where
  | byValue (t : TokenTy)
  | byRef (t : TokenTy)
deriving DecidableEq

/-- Signature summary of one public function of the binding, transcribed from
its Rust declaration in src/lib/jni.rs: the token-typed parameters in order,
the tokens appearing in the success branch of the result type, the tokens
appearing in the failure branch, and the native call-table functions the body
invokes. -/
structure ApiSig where
  name : String
  tokenParams : List TokenParam
  successTokens : List TokenTy
  failureTokens : List TokenTy
  nativeFns : List String
deriving DecidableEq

/-- Signature of `Capability::new` (a public constructor: no token input, no
native call, yields a `Capability`). -/
def capability_new_sig : ApiSig :=
  ⟨"Capability::new", [], [TokenTy.cap], [], []⟩

/-- Signature of `Exception::new` (a public constructor: no token input, no
native call, yields an `Exception`). -/
def exception_new_sig : ApiSig :=
  ⟨"Exception::new", [], [TokenTy.exc], [], []⟩

/-- Signature of `JavaEnv::find_class`:
`fn find_class(&self, name: &str, cap: Capability) -> JniResult<JavaClass>`. -/
def find_class_sig : ApiSig :=
  ⟨"JavaEnv::find_class", [TokenParam.byValue TokenTy.cap],
   [TokenTy.cap], [TokenTy.exc], ["FindClass"]⟩

/-- Signature of `JavaEnv::define_class`. -/
def define_class_sig : ApiSig :=
  ⟨"JavaEnv::define_class", [TokenParam.byValue TokenTy.cap],
   [TokenTy.cap], [TokenTy.exc], ["DefineClass"]⟩

/-- Signature of `JavaEnv::alloc_object`. -/
def alloc_object_sig : ApiSig :=
  ⟨"JavaEnv::alloc_object", [TokenParam.byValue TokenTy.cap],
   [TokenTy.cap], [TokenTy.exc], ["AllocObject"]⟩

/-- Signature of `JavaString::new`. -/
def string_new_sig : ApiSig :=
  ⟨"JavaString::new", [TokenParam.byValue TokenTy.cap],
   [TokenTy.cap], [TokenTy.exc], ["NewStringUTF"]⟩

/-- Signature of `JavaEnv::throw`:
`fn throw(&self, obj: &JavaThrowable, cap: Capability) -> Result<Exception, JniError>`.
The success branch holds an `Exception` token and the failure branch holds a
bare status code with no token. -/
def throw_sig : ApiSig :=
  ⟨"JavaEnv::throw", [TokenParam.byValue TokenTy.cap],
   [TokenTy.exc], [], ["Throw"]⟩

/-- Signature of `JavaEnv::push_local_frame`:
`fn push_local_frame(&self, capacity: isize, cap: Capability) -> Result<Capability, (JniError, Exception)>`. -/
def push_local_frame_sig : ApiSig :=
  ⟨"JavaEnv::push_local_frame", [TokenParam.byValue TokenTy.cap],
   [TokenTy.cap], [TokenTy.exc], ["PushLocalFrame"]⟩

/-- Signature of `JavaEnv::monitor_exit`. -/
def monitor_exit_sig : ApiSig :=
  ⟨"JavaEnv::monitor_exit", [TokenParam.byValue TokenTy.cap],
   [TokenTy.cap], [TokenTy.exc], ["MonitorExit"]⟩

/-- Signature of `JavaEnv::exception_check`: no token parameter; yields a
`Capability` when no exception is pending and an `Exception` otherwise. -/
def exception_check_sig : ApiSig :=
  ⟨"JavaEnv::exception_check", [], [TokenTy.cap], [TokenTy.exc], ["ExceptionCheck"]⟩

/-- Signature of `JavaEnv::exception_clear`: consumes the `Exception`,
infallibly yields a `Capability`. -/
def exception_clear_sig : ApiSig :=
  ⟨"JavaEnv::exception_clear", [TokenParam.byValue TokenTy.exc],
   [TokenTy.cap], [], ["ExceptionClear"]⟩

/-- Signature of `JavaEnv::version`: borrows a `Capability`. -/
def version_sig : ApiSig :=
  ⟨"JavaEnv::version", [TokenParam.byRef TokenTy.cap], [], [], ["GetVersion"]⟩

/-- Signature of `JavaString::size`:
`fn size(&self) -> usize` takes no token of any kind. -/
def string_size_sig : ApiSig :=
  ⟨"JavaString::size", [], [], [], ["GetStringUTFLength"]⟩

/-- Signature of `JavaString::to_str`:
`fn to_str(&self) -> Option<String>` takes no token of any kind; through
`chars` and the `JavaStringChars` drop it invokes `GetStringUTFChars` and
`ReleaseStringUTFChars`. -/
def string_to_str_sig : ApiSig :=
  ⟨"JavaString::to_str", [], [], [], ["GetStringUTFChars", "ReleaseStringUTFChars"]⟩

/-- Signature of `JavaString::region`:
`fn region(&self, start: usize, length: usize) -> JavaChars` takes no token of
any kind. -/
def string_region_sig : ApiSig :=
  ⟨"JavaString::region", [], [], [], ["GetStringUTFRegion"]⟩

/-- The public token-relevant API surface of src/lib/jni.rs, as transcribed
signatures. -/
def publicApi : List ApiSig :=
  [capability_new_sig, exception_new_sig,
   find_class_sig, define_class_sig, alloc_object_sig, string_new_sig,
   throw_sig, push_local_frame_sig, monitor_exit_sig,
   exception_check_sig, exception_clear_sig, version_sig,
   string_size_sig, string_to_str_sig, string_region_sig]

/-- A token of type `t` can be fabricated when some public function takes no
token parameter, performs no native call, and still yields a `t` token: its
result cannot reflect the actual state of the runtime. -/
def canFabricate (t : TokenTy) : Prop :=
  ∃ sig ∈ publicApi,
    sig.tokenParams = [] ∧ sig.nativeFns = [] ∧
      (t ∈ sig.successTokens ∨ t ∈ sig.failureTokens)

/-- The shape claimed by the specification for every fallible operation:
consume a `Capability` by value, yield a fresh `Capability` in the success
branch and a fresh `Exception` in the failure branch. -/
def fallibleClaimShape (sig : ApiSig) : Prop :=
  sig.tokenParams = [TokenParam.byValue TokenTy.cap] ∧
    sig.successTokens = [TokenTy.cap] ∧ sig.failureTokens = [TokenTy.exc]


/-- Claim C1, counterexample: the specified shape fails at `JavaEnv::throw`.
Its signature puts the fresh `Exception` token in the success branch (a
successful `Throw` makes an exception pending) and a bare status code, with
no token at all, in the failure branch; concretely, a successful native call
yields `Ok(Exception)` and a failing one yields `Err(JNI_ERR)`. -/
theorem c1_counterexample :
    ¬ fallibleClaimShape throw_sig
    ∧ JavaEnv.throw ⟨1, RefType.Local⟩ JniError.JNI_OK Capability.new
        = Except.ok Exception.new
    ∧ JavaEnv.throw ⟨1, RefType.Local⟩ JniError.JNI_ERR Capability.new
        = Except.error JniError.JNI_ERR :=
  ⟨by unfold fallibleClaimShape; decide, rfl, rfl⟩

/-- Claim C1 (amended): all seven fallible operations consume the
`Capability` by value.  `find_class`, `define_class`, `alloc_object` and
`JavaString::new` return the result paired with a fresh `Capability` on
success and a fresh `Exception` on failure; `push_local_frame` and
`monitor_exit` return a fresh `Capability` on success and a status code
paired with a fresh `Exception` on failure; `throw` returns a fresh
`Exception` on success and a bare status code on failure. -/
theorem c1_fallible_ops :
    (fallibleClaimShape find_class_sig ∧ fallibleClaimShape define_class_sig
      ∧ fallibleClaimShape alloc_object_sig ∧ fallibleClaimShape string_new_sig
      ∧ fallibleClaimShape push_local_frame_sig ∧ fallibleClaimShape monitor_exit_sig)
    ∧ (throw_sig.tokenParams = [TokenParam.byValue TokenTy.cap]
        ∧ throw_sig.successTokens = [TokenTy.exc] ∧ throw_sig.failureTokens = [])
    ∧ (∀ nm obj cap, obj ≠ 0 →
        JavaEnv.find_class nm obj cap = Except.ok (⟨obj, RefType.Local⟩, Capability.new))
    ∧ (∀ nm obj cap, obj = 0 →
        JavaEnv.find_class nm obj cap = Except.error Exception.new)
    ∧ (∀ nm loader buf obj cap, obj ≠ 0 →
        JavaEnv.define_class nm loader buf obj cap
          = Except.ok (⟨obj, RefType.Local⟩, Capability.new))
    ∧ (∀ nm loader buf obj cap, obj = 0 →
        JavaEnv.define_class nm loader buf obj cap = Except.error Exception.new)
    ∧ (∀ clazz obj cap, obj ≠ 0 →
        JavaEnv.alloc_object clazz obj cap
          = Except.ok (⟨obj, RefType.Local⟩, Capability.new))
    ∧ (∀ clazz obj cap, obj = 0 →
        JavaEnv.alloc_object clazz obj cap = Except.error Exception.new)
    ∧ (∀ val r cap, r ≠ 0 →
        JavaString.new val r cap = Except.ok (⟨r, RefType.Local⟩, Capability.new))
    ∧ (∀ val r cap, r = 0 →
        JavaString.new val r cap = Except.error Exception.new)
    ∧ (∀ obj cap, JavaEnv.throw obj JniError.JNI_OK cap = Except.ok Exception.new)
    ∧ (∀ obj err cap, err ≠ JniError.JNI_OK →
        JavaEnv.throw obj err cap = Except.error err)
    ∧ (∀ c cap, JavaEnv.push_local_frame c JniError.JNI_OK cap = Except.ok Capability.new)
    ∧ (∀ c err cap, err ≠ JniError.JNI_OK →
        JavaEnv.push_local_frame c err cap = Except.error (err, Exception.new))
    ∧ (∀ obj cap, JavaEnv.monitor_exit obj JniError.JNI_OK cap = Except.ok Capability.new)
    ∧ (∀ obj err cap, err ≠ JniError.JNI_OK →
        JavaEnv.monitor_exit obj err cap = Except.error (err, Exception.new)) := by
  refine ⟨by unfold fallibleClaimShape; decide, by decide, ?_, ?_, ?_, ?_, ?_, ?_, ?_, ?_,
    ?_, ?_, ?_, ?_, ?_, ?_⟩
  · intro nm obj cap h; simp [JavaEnv.find_class, h]
  · intro nm obj cap h; simp [JavaEnv.find_class, h]
  · intro nm loader buf obj cap h; simp [JavaEnv.define_class, h]
  · intro nm loader buf obj cap h; simp [JavaEnv.define_class, h]
  · intro clazz obj cap h; simp [JavaEnv.alloc_object, h]
  · intro clazz obj cap h; simp [JavaEnv.alloc_object, h]
  · intro val r cap h; simp [JavaString.new, h]
  · intro val r cap h; simp [JavaString.new, h]
  · intro obj cap; simp [JavaEnv.throw]
  · intro obj err cap h; simp [JavaEnv.throw, h]
  · intro c cap; simp [JavaEnv.push_local_frame]
  · intro c err cap h; simp [JavaEnv.push_local_frame, h]
  · intro obj cap; simp [JavaEnv.monitor_exit]
  · intro obj err cap h; simp [JavaEnv.monitor_exit, h]

/-- Claim C1, witness: the amended theorem evaluated at concrete inputs. -/
theorem c1_fallible_ops_witness :
    JavaEnv.find_class "java/lang/String" 3 Capability.new
      = Except.ok (⟨3, RefType.Local⟩, Capability.new)
    ∧ JavaEnv.throw ⟨1, RefType.Local⟩ JniError.JNI_ERR Capability.new
        = Except.error JniError.JNI_ERR
    ∧ JavaEnv.push_local_frame 4 JniError.JNI_ERR Capability.new
        = Except.error (JniError.JNI_ERR, Exception.new) := by
  obtain ⟨-, -, hfc, -, -, -, -, -, -, -, -, hthrow, -, hplf, -, -⟩ := c1_fallible_ops
  exact ⟨hfc "java/lang/String" 3 Capability.new (by decide),
    hthrow ⟨1, RefType.Local⟩ JniError.JNI_ERR Capability.new (by decide),
    hplf 4 JniError.JNI_ERR Capability.new (by decide)⟩

/-- Claim C2, counterexample: tokens can be fabricated outside any call
chain.  `Capability::new` and `Exception::new` are public constructors that
take no token parameter and perform no native call, so client code can mint
both token types from nothing. -/
theorem c2_counterexample : canFabricate TokenTy.cap ∧ canFabricate TokenTy.exc :=
  ⟨⟨capability_new_sig, by decide, rfl, rfl, Or.inl (by decide)⟩,
   ⟨exception_new_sig, by decide, rfl, rfl, Or.inl (by decide)⟩⟩

/-- Claim C2 (amended): reuse of an already-moved token is a compile-time
error through Rust move semantics (a type-system fact outside this model),
but client code CAN fabricate fresh tokens: the public constructors
`Capability::new` and `Exception::new` take no token and perform no native
call, and they are exactly the token-API entry points with that property, so
per-chain token uniqueness relies on client discipline rather than the type
system. -/
theorem c2_fabrication :
    canFabricate TokenTy.cap ∧ canFabricate TokenTy.exc
    ∧ (publicApi.filter
        (fun sig => sig.tokenParams.isEmpty && sig.nativeFns.isEmpty)).map ApiSig.name
      = ["Capability::new", "Exception::new"] :=
  ⟨⟨capability_new_sig, by decide, rfl, rfl, Or.inl (by decide)⟩,
   ⟨exception_new_sig, by decide, rfl, rfl, Or.inl (by decide)⟩,
   by decide⟩

/-- Claim C3: dropping a `JavaEnv` with an exception pending describes the
exception (the `ExceptionDescribe` native call appears in the trace, before
the failing assertion) and aborts with the failing `assert!`; dropping it
with no exception pending never produces that abort. -/
theorem c3_env_drop :
    ∀ (s : JvmState) (detach : Bool) (gv de : JniError),
      (s.pending = true →
        (JavaEnv.drop s detach gv de).1 = DropOutcome.assertPending
        ∧ (JavaEnv.drop s detach gv de).2
            = [NativeCall.ExceptionCheck, NativeCall.ExceptionDescribe,
               NativeCall.ExceptionClear])
      ∧ (s.pending = false →
        (JavaEnv.drop s detach gv de).1 ≠ DropOutcome.assertPending) := by
  intro s detach gv de
  constructor
  · intro hp
    simp [JavaEnv.drop, JavaEnv.exception_check, nativeExceptionCheck, hp]
  · intro hp
    simp [JavaEnv.drop, JavaEnv.exception_check, nativeExceptionCheck, hp]
    split_ifs <;> simp

/-- Claim C3, witness: the theorem evaluated at concrete inputs. -/
theorem c3_env_drop_witness :
    (JavaEnv.drop ⟨true, fun _ => 0⟩ false JniError.JNI_OK JniError.JNI_OK).1
      = DropOutcome.assertPending
    ∧ (JavaEnv.drop ⟨false, fun _ => 0⟩ false JniError.JNI_OK JniError.JNI_OK).1
        ≠ DropOutcome.assertPending :=
  ⟨((c3_env_drop ⟨true, fun _ => 0⟩ false JniError.JNI_OK JniError.JNI_OK).1 rfl).1,
   (c3_env_drop ⟨false, fun _ => 0⟩ false JniError.JNI_OK JniError.JNI_OK).2 rfl⟩

/-- Claim C4, counterexample: the version floor is not enforced.  For a
runtime handle constructed with requested version 1.6, an environment whose
native `GetVersion` reports the recognized raw value `0x00010002` makes
`JavaEnv::version` return `JNI_VERSION_1_2` as an ordinary value — strictly
below the requested floor — instead of panicking. -/
theorem c4_counterexample :
    (JavaVM.mk 1 JniVersion.JNI_VERSION_1_6).version = JniVersion.JNI_VERSION_1_6
    ∧ JavaEnv.version 0x00010002 Capability.new = Outcome.ok JniVersion.JNI_VERSION_1_2
    ∧ JniVersion.JNI_VERSION_1_2.raw
        < (JavaVM.mk 1 JniVersion.JNI_VERSION_1_6).version.raw :=
  ⟨rfl, by decide, by decide⟩

/-- Claim C4 (amended): `JavaEnv::version` panics exactly when the reported
raw value lies outside the recognized range `0x00010001 ... 0x00010008`; any
recognized value is returned as-is, with no comparison against the version
the `JavaVM` was constructed with, so a recognized reported version below the
requested floor is returned as a value rather than causing a panic.  The
floor property is only an assumption about the native runtime, asserted in
the test suite. -/
theorem c4_version_range :
    ∀ (raw : Nat) (cap : Capability),
      (JavaEnv.version raw cap = Outcome.fatal
        ↔ (raw < 0x00010001 ∨ 0x00010008 < raw))
      ∧ (∀ v, JavaEnv.version raw cap = Outcome.ok v → v.raw = raw) := by
  intro raw cap
  constructor
  · simp only [JavaEnv.version, JniVersion.fromRaw]
    split_ifs <;> simp <;> omega
  · intro v hv
    simp only [JavaEnv.version, JniVersion.fromRaw] at hv
    split_ifs at hv <;> simp at hv <;> subst hv <;> simp_all [JniVersion.raw]

/-- Claim C4, witness: the amended theorem evaluated at concrete inputs. -/
theorem c4_version_range_witness :
    JavaEnv.version 0x00010000 Capability.new = Outcome.fatal
    ∧ JniVersion.JNI_VERSION_1_3.raw = 0x00010003 :=
  ⟨(c4_version_range 0x00010000 Capability.new).1.mpr (Or.inl (by decide)),
   (c4_version_range 0x00010003 Capability.new).2 JniVersion.JNI_VERSION_1_3 (by decide)⟩

/-- Claim C5: for each reference kind and every handle type of the family,
dropping a handle of that kind performs exactly the release call matching
that kind, once, and no other release call; the dispatch is total over the
kind enumeration and identical across the five handle types. -/
theorem c5_drop_dispatch :
    ∀ (k : RefType) (p : Ref),
      JavaObject.drop ⟨p, k⟩ = Outcome.ok [releaseFor k p]
      ∧ JavaClass.drop ⟨p, k⟩ = Outcome.ok [releaseFor k p]
      ∧ JavaThrowable.drop ⟨p, k⟩ = Outcome.ok [releaseFor k p]
      ∧ JavaString.drop ⟨p, k⟩ = Outcome.ok [releaseFor k p]
      ∧ JavaArray.drop ⟨p, k⟩ = Outcome.ok [releaseFor k p]
      ∧ releaseKindOf (releaseFor k p) = some k
      ∧ (∀ k', releaseKindOf (releaseFor k p) = some k' → k' = k) := by
  intro k p
  cases k <;>
    refine ⟨rfl, rfl, rfl, rfl, rfl, rfl, ?_⟩ <;>
    · intro k' h
      simp [releaseFor, releaseKindOf] at h
      exact h.symm

/-- Claim C5, witness: the theorem evaluated at a concrete input. -/
theorem c5_drop_dispatch_witness :
    JavaObject.drop ⟨3, RefType.Global⟩ = Outcome.ok [NativeCall.DeleteGlobalRef 3]
    ∧ RefType.Global = RefType.Global :=
  ⟨(c5_drop_dispatch RefType.Global 3).1,
   (c5_drop_dispatch RefType.Global 3).2.2.2.2.2.2 RefType.Global (by decide)⟩

/-- Claim C6: `exception_clear` consumes the `Exception` token and always
yields a fresh `Capability`; immediately afterwards `exception_check` reports
no pending exception, returning `Ok` with a `Capability`. -/
theorem c6_clear_roundtrip :
    ∀ (s : JvmState) (exn : Exception),
      (JavaEnv.exception_clear s exn).2 = Capability.new
      ∧ JavaEnv.exception_check (JavaEnv.exception_clear s exn).1
          = Except.ok Capability.new :=
  fun _ _ => ⟨rfl, rfl⟩

/-- Claim C7, counterexample: demotion is available through the safe API.
With the native table mapping reference `1` to object `42`, calling the trait
method `local` on a Global-kind handle over reference `1` succeeds and yields
a Local-kind handle whose fresh reference `2` denotes that same object
`42`. -/
theorem c7_counterexample :
    (JObject.local ⟨false, fun x => if x = 1 then 42 else 0⟩ ⟨1, RefType.Global⟩ 2
        Capability.new).2
      = Except.ok (⟨2, RefType.Local⟩, Capability.new)
    ∧ (JObject.local ⟨false, fun x => if x = 1 then 42 else 0⟩ ⟨1, RefType.Global⟩ 2
        Capability.new).1.refObj 2 = 42
    ∧ (⟨1, RefType.Global⟩ : JavaObject).rtype = RefType.Global
    ∧ (⟨false, fun x => if x = 1 then 42 else 0⟩ : JvmState).refObj 1 = 42 :=
  ⟨rfl, rfl, rfl, rfl⟩

/-- Claim C7 (amended): the safe API offers all three conversions — `local`,
`global` and `weak` — on a handle of any kind, including Local-kind creation
from a Global-kind source; each consumes the capability and, when the native
call succeeds with a fresh reference, produces a new handle of the requested
kind denoting the same underlying object, without invalidating the source
handle. -/
theorem c7_ref_conversions :
    ∀ (s : JvmState) (h : JavaObject) (r : Ref) (cap : Capability),
      r ≠ 0 → r ≠ h.ptr →
        ((JObject.local s h r cap).2 = Except.ok (⟨r, RefType.Local⟩, Capability.new)
          ∧ (JObject.local s h r cap).1.refObj r = s.refObj h.ptr
          ∧ (JObject.local s h r cap).1.refObj h.ptr = s.refObj h.ptr)
        ∧ ((JObject.global s h r cap).2 = Except.ok (⟨r, RefType.Global⟩, Capability.new)
          ∧ (JObject.global s h r cap).1.refObj r = s.refObj h.ptr
          ∧ (JObject.global s h r cap).1.refObj h.ptr = s.refObj h.ptr)
        ∧ ((JObject.weak s h r cap).2 = Except.ok (⟨r, RefType.Weak⟩, Capability.new)
          ∧ (JObject.weak s h r cap).1.refObj r = s.refObj h.ptr
          ∧ (JObject.weak s h r cap).1.refObj h.ptr = s.refObj h.ptr) := by
  intro s h r cap hr hptr
  have hptr' : h.ptr ≠ r := Ne.symm hptr
  simp [JObject.local, JObject.global, JObject.weak, hr, hptr']

/-- Claim C7, witness: the amended theorem evaluated at a concrete input. -/
theorem c7_ref_conversions_witness :
    (JObject.weak ⟨false, fun x => if x = 1 then 42 else 0⟩ ⟨1, RefType.Global⟩ 2
        Capability.new).2 = Except.ok (⟨2, RefType.Weak⟩, Capability.new) :=
  ((c7_ref_conversions ⟨false, fun x => if x = 1 then 42 else 0⟩ ⟨1, RefType.Global⟩ 2
      Capability.new (by decide) (by decide)).2.2).1

/-- Claim C8: the first teardown of a live `JavaVM` invokes the native
`DestroyJavaVM` exactly once and nulls the stored pointer; a repeated
teardown on the already-destroyed handle performs no native call, reports
`JNI_OK`, and leaves the state unchanged; a non-OK teardown status makes the
drop panic, while an OK status does not. -/
theorem c8_vm_destroy :
    ∀ (vm : JavaVM) (err err' : JniError), vm.ptr ≠ 0 →
      ((vm.destroy_java_vm err).1.ptr = 0
        ∧ (vm.destroy_java_vm err).2.1 = err
        ∧ (vm.destroy_java_vm err).2.2 = [NativeCall.DestroyJavaVM vm.ptr])
      ∧ (vm.destroy_java_vm err).1.destroy_java_vm err'
          = ((vm.destroy_java_vm err).1, JniError.JNI_OK, [])
      ∧ (err ≠ JniError.JNI_OK → vm.drop err = Outcome.fatal)
      ∧ (err = JniError.JNI_OK →
          vm.drop err
            = Outcome.ok ((vm.destroy_java_vm err).1,
                [NativeCall.DestroyJavaVM vm.ptr])) := by
  intro vm err err' hp
  refine ⟨⟨?_, ?_, ?_⟩, ?_, ?_, ?_⟩
  · simp [JavaVM.destroy_java_vm, hp]
  · simp [JavaVM.destroy_java_vm, hp]
  · simp [JavaVM.destroy_java_vm, hp]
  · simp [JavaVM.destroy_java_vm, hp]
  · intro he; simp [JavaVM.drop, JavaVM.destroy_java_vm, hp, he]
  · intro he; simp [JavaVM.drop, JavaVM.destroy_java_vm, hp, he]

/-- Claim C8, witness: the theorem evaluated at concrete inputs. -/
theorem c8_vm_destroy_witness :
    ((JavaVM.mk 7 JniVersion.JNI_VERSION_1_6).destroy_java_vm JniError.JNI_ERR).1.ptr = 0
    ∧ (JavaVM.mk 7 JniVersion.JNI_VERSION_1_6).drop JniError.JNI_ERR = Outcome.fatal :=
  ⟨((c8_vm_destroy (JavaVM.mk 7 JniVersion.JNI_VERSION_1_6) JniError.JNI_ERR
      JniError.JNI_OK (by decide)).1).1,
   (c8_vm_destroy (JavaVM.mk 7 JniVersion.JNI_VERSION_1_6) JniError.JNI_ERR
      JniError.JNI_OK (by decide)).2.2.1 (by decide)⟩

/-- Claim C9: `pop_local_frame` carries exactly one handle through the frame
boundary; when the native call returns the null sentinel the `assert!` fails
(a fatal abort, never a recoverable error value), and on a non-null result
the returned value is a fresh Local-kind handle to the carried reference. -/
theorem c9_pop_local_frame :
    ∀ (result : JavaObject) (r : Ref) (cap : Capability),
      (r = 0 → JavaEnv.pop_local_frame result r cap = Outcome.fatal)
      ∧ (r ≠ 0 → JavaEnv.pop_local_frame result r cap
            = Outcome.ok ⟨r, RefType.Local⟩)
      ∧ (∀ h, JavaEnv.pop_local_frame result r cap = Outcome.ok h
            → h.rtype = RefType.Local) := by
  intro result r cap
  refine ⟨fun h0 => by simp [JavaEnv.pop_local_frame, h0], fun h0 => by
    simp [JavaEnv.pop_local_frame, h0], ?_⟩
  intro h hh
  by_cases h0 : r = 0
  · simp [JavaEnv.pop_local_frame, h0] at hh
  · simp [JavaEnv.pop_local_frame, h0] at hh
    subst hh
    rfl

/-- Claim C9, witness: the theorem evaluated at concrete inputs. -/
theorem c9_pop_local_frame_witness :
    JavaEnv.pop_local_frame ⟨1, RefType.Local⟩ 0 Capability.new = Outcome.fatal
    ∧ JavaEnv.pop_local_frame ⟨1, RefType.Local⟩ 5 Capability.new
        = Outcome.ok ⟨5, RefType.Local⟩ :=
  ⟨(c9_pop_local_frame ⟨1, RefType.Local⟩ 0 Capability.new).1 rfl,
   (c9_pop_local_frame ⟨1, RefType.Local⟩ 5 Capability.new).2.1 (by decide)⟩

/-- Claim C10: `JavaString::size`, `JavaString::to_str` and
`JavaString::region` are public operations that invoke the native interface
while taking no `Capability` or `Exception` parameter at all, so no token
state — a pending exception included — excludes calling them. -/
theorem c10_string_ops_tokenless :
    (string_size_sig ∈ publicApi ∧ string_size_sig.tokenParams = []
      ∧ string_size_sig.nativeFns = ["GetStringUTFLength"])
    ∧ (string_to_str_sig ∈ publicApi ∧ string_to_str_sig.tokenParams = []
      ∧ string_to_str_sig.nativeFns = ["GetStringUTFChars", "ReleaseStringUTFChars"])
    ∧ (string_region_sig ∈ publicApi ∧ string_region_sig.tokenParams = []
      ∧ string_region_sig.nativeFns = ["GetStringUTFRegion"]) := by
  refine ⟨⟨?_, rfl, rfl⟩, ⟨?_, rfl, rfl⟩, ⟨?_, rfl, rfl⟩⟩ <;> decide
